import Mathlib

/-!
# Verification of the SSH-key-selection decision procedure

Shallow embedding of `askWhichSSHKeysDoTheyWantToAdd` and the
non-interactive key-selection slice of `createCommand` from
`packages/wrangler/src/cloudchamber/create.ts`, together with proofs of
the behavioural properties claimed for them.

The procedure is modelled as a pure function from the command-line
arguments, the optional already-chosen key, and the collaborator
responses (the available-keys provider and the interactive prompts) to
the selected key identifiers paired with the trace of suspension events
(the network fetch and each interactive prompt) in the order they occur.
-/

set_option autoImplicit false

namespace Cloudchamber

/-- An SSH key record as returned by the available-keys provider:
an identifier and a human-readable name. -/
structure SSHKeyItem where
  id : String
  name : String
deriving DecidableEq, Repr

/-- The slice of the parsed command-line arguments consulted by the
key-selection logic: the `--all-ssh-keys` boolean flag and the
`--ssh-key-id` string-array flag, each possibly absent. -/
structure CreateArgs where
  allSshKeys : Option Bool
  sshKeyId : Option (List String)
deriving DecidableEq, Repr

/-- JavaScript truthiness of a `boolean | undefined` value:
`undefined` and `false` are falsy, `true` is truthy. -/
def optBoolTruthy : Option Bool → Bool
  | some b => b
  | none => false

/-- JavaScript truthiness of a `string | undefined` value:
`undefined` and the empty string are falsy. -/
def optStrTruthy : Option String → Bool
  | some s => s != ""
  | none => false

/-- The condition `args.sshKeyId && args.sshKeyId.length` from the
source: the `--ssh-key-id` flag is present and the list is non-empty. -/
def sshKeyIdPresent (args : CreateArgs) : Bool :=
  match args.sshKeyId with
  | some l => l.length != 0
  | none => false

/-- A suspension event of the procedure: the network fetch of the
available keys, or one of the three interactive prompts. -/
inductive Event where
  | fetch
  | promptConfirm
  | promptSelect
  | promptMultiselect
deriving DecidableEq, Repr

/-- Whether an event is an interactive prompt (as opposed to the
network fetch). -/
def Event.isPrompt : Event → Bool
  | Event.fetch => false
  | _ => true

/-- The responses delivered by the external collaborators during one
run: the provider's key list and the value each prompt would return if
shown. -/
structure Collaborators where
  keyItems : List SSHKeyItem
  confirmResponse : Bool
  selectResponse : String
  multiselectResponse : List String
deriving DecidableEq, Repr

/-- The value submitted to the multi-select validation callback, which
in the source has the CLI library's union type `Arg`
(`string | boolean | string[] | ...`). -/
inductive ArgV where
  | strs (l : List String)
  | str (s : String)
  | boolean (b : Bool)
deriving DecidableEq, Repr

/-- The `validate` callback passed to the multi-select prompt in the
"select" branch: a non-array submission yields "unknown error", an
empty array yields "Select atleast one ssh key!", and any other array
is accepted (the callback returns `undefined`, i.e. `none`). -/
def selectKeysValidate (values : ArgV) : Option String :=
  match values with
  | ArgV.strs l =>
      if l.length = 0 then some "Select atleast one ssh key!" else none
  | _ => some "unknown error"

/-- Embedding of `askWhichSSHKeysDoTheyWantToAdd`: given the parsed
arguments, the optional already-chosen key and the collaborator
responses, returns the selected key identifiers together with the
ordered trace of suspension events.  Mirrors the source branch by
branch: fetch the key list, then test `args.allSshKeys === true`, then
`args.sshKeyId && args.sshKeyId.length` (appending `key` only when it
is truthy), then the `keys.length === 1` confirm prompt, then the
`keys.length <= 1` early return, and finally the three-way select
prompt whose "select" answer opens the multi-select prompt. -/
def askWhichSSHKeysDoTheyWantToAdd (args : CreateArgs) (key : Option String)
    (c : Collaborators) : List String × List Event :=
  let keyItems := c.keyItems
  let keys := keyItems.map (fun keyItem => keyItem.id)
  if args.allSshKeys = some true then
    (keys, [Event.fetch])
  else if sshKeyIdPresent args then
    (if optStrTruthy key then args.sshKeyId.getD [] ++ key.toList
     else args.sshKeyId.getD [], [Event.fetch])
  else if keys.length = 1 then
    (if c.confirmResponse then keys else [], [Event.fetch, Event.promptConfirm])
  else if keys.length ≤ 1 then
    ([], [Event.fetch])
  else if c.selectResponse = "all" then
    (keys, [Event.fetch, Event.promptSelect])
  else if c.selectResponse = "select" then
    (c.multiselectResponse,
      [Event.fetch, Event.promptSelect, Event.promptMultiselect])
  else
    ([], [Event.fetch, Event.promptSelect])

/-- Embedding of the `keysToAdd` computation on the non-interactive
path of `createCommand`: `args.allSshKeys ? (await poll...).map(key =>
key.id) : []`.  The provider's list is a parameter; no other field of
the arguments is consulted. -/
def nonInteractiveKeysToAdd (args : CreateArgs)
    (availableKeys : List SSHKeyItem) : List String :=
  if optBoolTruthy args.allSshKeys then
    availableKeys.map (fun key => key.id)
  else
    []

/-- Number of interactive prompts in a trace. -/
def promptCount (trace : List Event) : Nat :=
  trace.countP (fun e => e.isPrompt)

end Cloudchamber

namespace Cloudchamber

/-- C1 counterexample: with no flags, two available keys and a user who
answers "select" to the three-way prompt, the procedure shows two
interactive prompts (the three-way select and the multi-select), so it
is not the case that at most one prompt is shown per invocation. -/
theorem c1_counterexample :
    ¬ promptCount
        ((askWhichSSHKeysDoTheyWantToAdd
          { allSshKeys := none, sshKeyId := none } none
          { keyItems := [⟨"id1", "key1"⟩, ⟨"id2", "key2"⟩],
            confirmResponse := false,
            selectResponse := "select",
            multiselectResponse := ["id2"] }).2) ≤ 1 := by
  decide

/-- C1 (amended): every invocation of `askWhichSSHKeysDoTheyWantToAdd`
shows at most two interactive prompts, and a second prompt occurs only
when the user answers "select" to the three-way choice, in which case
the prompts are exactly the three-way select followed by the
multi-select. -/
theorem c1_at_most_two_prompts (args : CreateArgs) (key : Option String)
    (c : Collaborators) :
    promptCount (askWhichSSHKeysDoTheyWantToAdd args key c).2 ≤ 2 := by
  unfold askWhichSSHKeysDoTheyWantToAdd promptCount
  dsimp only
  split_ifs <;> simp [List.countP, List.countP.go, Event.isPrompt]

/-- C2 counterexample: with `--ssh-key-id a` and an already-chosen key
that is the empty string, the source's truthiness test `key ?` treats
the provided key as absent, so the result is `["a"]` and not
`["a", ""]` — the already-chosen key was provided but not appended. -/
theorem c2_counterexample :
    (askWhichSSHKeysDoTheyWantToAdd
        { allSshKeys := none, sshKeyId := some ["a"] } (some "")
        { keyItems := [], confirmResponse := false,
          selectResponse := "", multiselectResponse := [] }).1 = ["a"] ∧
    (["a"] : List String) ≠ ["a", ""] :=
  ⟨rfl, by decide⟩

/-- C2 (amended): with `allSshKeys` not true and a non-empty explicit
`sshKeyId` list, the result is that list with the already-chosen key
appended if and only if it was provided and non-empty (a provided
empty-string identifier is treated as absent by the source's
truthiness test); duplicates are not removed, and no prompt is
shown. -/
theorem c2_explicit_keys (args : CreateArgs) (key : Option String)
    (c : Collaborators) (l : List String)
    (h1 : args.allSshKeys ≠ some true)
    (h2 : args.sshKeyId = some l)
    (h3 : l ≠ []) :
    ((key = none → (askWhichSSHKeysDoTheyWantToAdd args key c).1 = l) ∧
     (key = some "" → (askWhichSSHKeysDoTheyWantToAdd args key c).1 = l) ∧
     (∀ k, key = some k → k ≠ "" →
        (askWhichSSHKeysDoTheyWantToAdd args key c).1 = l ++ [k])) ∧
    promptCount (askWhichSSHKeysDoTheyWantToAdd args key c).2 = 0 := by
  have hp : sshKeyIdPresent args = true := by
    unfold sshKeyIdPresent
    rw [h2]
    simpa using h3
  have hgoal : askWhichSSHKeysDoTheyWantToAdd args key c
      = (if optStrTruthy key then l ++ key.toList else l, [Event.fetch]) := by
    unfold askWhichSSHKeysDoTheyWantToAdd
    dsimp only
    rw [if_neg h1, if_pos hp, h2]
    simp
  rw [hgoal]
  refine ⟨⟨?_, ?_, ?_⟩, ?_⟩
  · intro hk
    subst hk
    simp [optStrTruthy]
  · intro hk
    subst hk
    simp [optStrTruthy]
  · intro k hk hk2
    subst hk
    simp [optStrTruthy, hk2]
  · simp [promptCount, List.countP, List.countP.go, Event.isPrompt]

/-- Witness for C2 (amended) at `--ssh-key-id a` with already-chosen
key `"a"`: the duplicate is appended, and no prompt is shown. -/
theorem c2_explicit_keys_witness :
    ((some "a" = (none : Option String) →
        (askWhichSSHKeysDoTheyWantToAdd
          { allSshKeys := some false, sshKeyId := some ["a"] } (some "a")
          { keyItems := [⟨"a", "mykey"⟩], confirmResponse := false,
            selectResponse := "", multiselectResponse := [] }).1 = ["a"]) ∧
     (some "a" = some "" →
        (askWhichSSHKeysDoTheyWantToAdd
          { allSshKeys := some false, sshKeyId := some ["a"] } (some "a")
          { keyItems := [⟨"a", "mykey"⟩], confirmResponse := false,
            selectResponse := "", multiselectResponse := [] }).1 = ["a"]) ∧
     (∀ k, some "a" = some k → k ≠ "" →
        (askWhichSSHKeysDoTheyWantToAdd
          { allSshKeys := some false, sshKeyId := some ["a"] } (some "a")
          { keyItems := [⟨"a", "mykey"⟩], confirmResponse := false,
            selectResponse := "", multiselectResponse := [] }).1 = ["a"] ++ [k])) ∧
    promptCount (askWhichSSHKeysDoTheyWantToAdd
        { allSshKeys := some false, sshKeyId := some ["a"] } (some "a")
        { keyItems := [⟨"a", "mykey"⟩], confirmResponse := false,
          selectResponse := "", multiselectResponse := [] }).2 = 0 :=
  c2_explicit_keys
    { allSshKeys := some false, sshKeyId := some ["a"] } (some "a")
    { keyItems := [⟨"a", "mykey"⟩], confirmResponse := false,
      selectResponse := "", multiselectResponse := [] }
    ["a"] (by decide) rfl (by decide)

/-- C3: when `allSshKeys` is true, the result is the full list of
available key identifiers in the provider's order, regardless of
`sshKeyId` and of the already-chosen key, and no prompt is shown. -/
theorem c3_all_keys (args : CreateArgs) (key : Option String)
    (c : Collaborators) (h : args.allSshKeys = some true) :
    (askWhichSSHKeysDoTheyWantToAdd args key c).1
        = c.keyItems.map (fun k => k.id) ∧
    promptCount (askWhichSSHKeysDoTheyWantToAdd args key c).2 = 0 := by
  unfold askWhichSSHKeysDoTheyWantToAdd promptCount
  dsimp only
  rw [if_pos h]
  simp [List.countP, List.countP.go, Event.isPrompt]

/-- Witness for C3: with the flag set, both `sshKeyId` and the chosen
key are ignored and the two provider keys come back in order. -/
theorem c3_all_keys_witness :
    (askWhichSSHKeysDoTheyWantToAdd
        { allSshKeys := some true, sshKeyId := some ["z"] } (some "y")
        { keyItems := [⟨"a", "n1"⟩, ⟨"b", "n2"⟩], confirmResponse := true,
          selectResponse := "none", multiselectResponse := [] }).1
      = ([⟨"a", "n1"⟩, ⟨"b", "n2"⟩] : List SSHKeyItem).map (fun k => k.id) ∧
    promptCount (askWhichSSHKeysDoTheyWantToAdd
        { allSshKeys := some true, sshKeyId := some ["z"] } (some "y")
        { keyItems := [⟨"a", "n1"⟩, ⟨"b", "n2"⟩], confirmResponse := true,
          selectResponse := "none", multiselectResponse := [] }).2 = 0 :=
  c3_all_keys
    { allSshKeys := some true, sshKeyId := some ["z"] } (some "y")
    { keyItems := [⟨"a", "n1"⟩, ⟨"b", "n2"⟩], confirmResponse := true,
      selectResponse := "none", multiselectResponse := [] }
    rfl

/-- C4: with no flags and exactly one available key, the confirm
prompt is shown (and nothing else after the fetch); answering yes
yields the singleton list of that key's identifier, answering no (the
prompt's default) yields the empty list. -/
theorem c4_single_key_confirm (args : CreateArgs) (key : Option String)
    (c : Collaborators) (item : SSHKeyItem)
    (h1 : args.allSshKeys ≠ some true)
    (h2 : sshKeyIdPresent args = false)
    (h3 : c.keyItems = [item]) :
    (askWhichSSHKeysDoTheyWantToAdd args key c).2
        = [Event.fetch, Event.promptConfirm] ∧
    (askWhichSSHKeysDoTheyWantToAdd args key c).1
        = (if c.confirmResponse then [item.id] else []) := by
  unfold askWhichSSHKeysDoTheyWantToAdd
  dsimp only
  rw [if_neg h1, h3]
  simp [h2]

/-- Witness for C4: one available key and a yes answer give its id,
after exactly the fetch and the confirm prompt. -/
theorem c4_single_key_confirm_witness :
    (askWhichSSHKeysDoTheyWantToAdd
        { allSshKeys := none, sshKeyId := none } none
        { keyItems := [⟨"a", "onlykey"⟩], confirmResponse := true,
          selectResponse := "", multiselectResponse := [] }).2
      = [Event.fetch, Event.promptConfirm] ∧
    (askWhichSSHKeysDoTheyWantToAdd
        { allSshKeys := none, sshKeyId := none } none
        { keyItems := [⟨"a", "onlykey"⟩], confirmResponse := true,
          selectResponse := "", multiselectResponse := [] }).1
      = ["a"] :=
  c4_single_key_confirm
    { allSshKeys := none, sshKeyId := none } none
    { keyItems := [⟨"a", "onlykey"⟩], confirmResponse := true,
      selectResponse := "", multiselectResponse := [] }
    ⟨"a", "onlykey"⟩ (by decide) rfl rfl

/-- C5: with no flags and at least two available keys, the three-way
select prompt is shown, and the result is the full key list on "all",
exactly the multi-select submission on "select", and the empty list on
"none" or any other unrecognized response (no error is raised: the
procedure still returns a value). -/
theorem c5_multi_key_select (args : CreateArgs) (key : Option String)
    (c : Collaborators)
    (h1 : args.allSshKeys ≠ some true)
    (h2 : sshKeyIdPresent args = false)
    (h3 : 2 ≤ c.keyItems.length) :
    Event.promptSelect ∈ (askWhichSSHKeysDoTheyWantToAdd args key c).2 ∧
    (askWhichSSHKeysDoTheyWantToAdd args key c).1
      = (if c.selectResponse = "all" then c.keyItems.map (fun k => k.id)
         else if c.selectResponse = "select" then c.multiselectResponse
         else []) := by
  unfold askWhichSSHKeysDoTheyWantToAdd
  dsimp only
  rw [if_neg h1]
  rw [if_neg (by simp [h2])]
  rw [if_neg (by simp only [List.length_map]; omega)]
  rw [if_neg (by simp only [List.length_map]; omega)]
  split_ifs <;> simp

/-- Witness for C5: two keys and a "select" answer followed by a
multi-select submission of the second id yield exactly that id, with
the three-way prompt in the trace. -/
theorem c5_multi_key_select_witness :
    Event.promptSelect ∈ (askWhichSSHKeysDoTheyWantToAdd
        { allSshKeys := none, sshKeyId := none } none
        { keyItems := [⟨"k1", "n1"⟩, ⟨"k2", "n2"⟩], confirmResponse := false,
          selectResponse := "select", multiselectResponse := ["k2"] }).2 ∧
    (askWhichSSHKeysDoTheyWantToAdd
        { allSshKeys := none, sshKeyId := none } none
        { keyItems := [⟨"k1", "n1"⟩, ⟨"k2", "n2"⟩], confirmResponse := false,
          selectResponse := "select", multiselectResponse := ["k2"] }).1
      = (if "select" = "all"
         then ([⟨"k1", "n1"⟩, ⟨"k2", "n2"⟩] : List SSHKeyItem).map (fun k => k.id)
         else if "select" = "select" then ["k2"]
         else []) :=
  c5_multi_key_select
    { allSshKeys := none, sshKeyId := none } none
    { keyItems := [⟨"k1", "n1"⟩, ⟨"k2", "n2"⟩], confirmResponse := false,
      selectResponse := "select", multiselectResponse := ["k2"] }
    (by decide) rfl (by decide)

/-- C6: with no flags and zero available keys, the result is the empty
list and no prompt is shown. -/
theorem c6_zero_keys (args : CreateArgs) (key : Option String)
    (c : Collaborators)
    (h1 : args.allSshKeys ≠ some true)
    (h2 : sshKeyIdPresent args = false)
    (h3 : c.keyItems = []) :
    (askWhichSSHKeysDoTheyWantToAdd args key c).1 = [] ∧
    promptCount (askWhichSSHKeysDoTheyWantToAdd args key c).2 = 0 := by
  unfold askWhichSSHKeysDoTheyWantToAdd promptCount
  dsimp only
  rw [if_neg h1, h3]
  simp [h2, List.countP, List.countP.go, Event.isPrompt]

/-- Witness for C6: an empty provider list with no flags yields the
empty selection without prompting. -/
theorem c6_zero_keys_witness :
    (askWhichSSHKeysDoTheyWantToAdd
        { allSshKeys := some false, sshKeyId := some [] } none
        { keyItems := [], confirmResponse := true,
          selectResponse := "all", multiselectResponse := ["x"] }).1 = [] ∧
    promptCount (askWhichSSHKeysDoTheyWantToAdd
        { allSshKeys := some false, sshKeyId := some [] } none
        { keyItems := [], confirmResponse := true,
          selectResponse := "all", multiselectResponse := ["x"] }).2 = 0 :=
  c6_zero_keys
    { allSshKeys := some false, sshKeyId := some [] } none
    { keyItems := [], confirmResponse := true,
      selectResponse := "all", multiselectResponse := ["x"] }
    (by decide) rfl rfl

/-- C7: the multi-select validation callback rejects the empty array
with "Select atleast one ssh key!", rejects every non-array value with
"unknown error", and accepts every non-empty array; hence in any run
of the "select" branch whose multi-select submission passes
validation, the returned list is non-empty. -/
theorem c7_select_validation (args : CreateArgs) (key : Option String)
    (c : Collaborators)
    (h1 : args.allSshKeys ≠ some true)
    (h2 : sshKeyIdPresent args = false)
    (h3 : 2 ≤ c.keyItems.length)
    (h4 : c.selectResponse = "select")
    (h5 : selectKeysValidate (ArgV.strs c.multiselectResponse) = none) :
    selectKeysValidate (ArgV.strs []) = some "Select atleast one ssh key!" ∧
    (∀ s, selectKeysValidate (ArgV.str s) = some "unknown error") ∧
    (∀ b, selectKeysValidate (ArgV.boolean b) = some "unknown error") ∧
    (∀ l, l ≠ [] → selectKeysValidate (ArgV.strs l) = none) ∧
    (askWhichSSHKeysDoTheyWantToAdd args key c).1 ≠ [] := by
  refine ⟨rfl, fun s => rfl, fun b => rfl, ?_, ?_⟩
  · intro l hl
    unfold selectKeysValidate
    simp [List.length_eq_zero, hl]
  · have hm : c.multiselectResponse ≠ [] := by
      intro he
      rw [he] at h5
      simp [selectKeysValidate] at h5
    unfold askWhichSSHKeysDoTheyWantToAdd
    dsimp only
    rw [if_neg h1]
    rw [if_neg (by simp [h2])]
    rw [if_neg (by simp only [List.length_map]; omega)]
    rw [if_neg (by simp only [List.length_map]; omega)]
    rw [if_neg (by rw [h4]; decide), if_pos h4]
    exact hm

/-- Witness for C7: with the submission `["k1"]` accepted by the
validation, the "select" branch returns a non-empty list. -/
theorem c7_select_validation_witness :
    selectKeysValidate (ArgV.strs []) = some "Select atleast one ssh key!" ∧
    (∀ s, selectKeysValidate (ArgV.str s) = some "unknown error") ∧
    (∀ b, selectKeysValidate (ArgV.boolean b) = some "unknown error") ∧
    (∀ l, l ≠ [] → selectKeysValidate (ArgV.strs l) = none) ∧
    (askWhichSSHKeysDoTheyWantToAdd
        { allSshKeys := none, sshKeyId := none } none
        { keyItems := [⟨"k1", "n1"⟩, ⟨"k2", "n2"⟩], confirmResponse := false,
          selectResponse := "select", multiselectResponse := ["k1"] }).1 ≠ [] :=
  c7_select_validation
    { allSshKeys := none, sshKeyId := none } none
    { keyItems := [⟨"k1", "n1"⟩, ⟨"k2", "n2"⟩], confirmResponse := false,
      selectResponse := "select", multiselectResponse := ["k1"] }
    (by decide) rfl (by decide) rfl rfl

/-- C8: every invocation performs exactly one fetch of the available
keys, and that fetch is the first suspension event of the trace, so it
completes before any prompt on every branch. -/
theorem c8_fetch_once_first (args : CreateArgs) (key : Option String)
    (c : Collaborators) :
    (askWhichSSHKeysDoTheyWantToAdd args key c).2.count Event.fetch = 1 ∧
    (askWhichSSHKeysDoTheyWantToAdd args key c).2.head? = some Event.fetch := by
  constructor <;>
    (unfold askWhichSSHKeysDoTheyWantToAdd
     dsimp only
     split_ifs <;> rfl)

/-- C9: when `allSshKeys` is true or the explicit `sshKeyId` list is
absent or empty, the result does not depend on the already-chosen key:
two invocations with identical arguments and collaborator responses
that differ only in that key return the same selection. -/
theorem c9_chosen_key_noninterference (args : CreateArgs)
    (k1 k2 : Option String) (c : Collaborators)
    (h : args.allSshKeys = some true ∨ sshKeyIdPresent args = false) :
    (askWhichSSHKeysDoTheyWantToAdd args k1 c).1
      = (askWhichSSHKeysDoTheyWantToAdd args k2 c).1 := by
  unfold askWhichSSHKeysDoTheyWantToAdd
  dsimp only
  rcases h with h | h
  · rw [if_pos h, if_pos h]
  · simp only [h, Bool.false_eq_true, if_false]

/-- Witness for C9: with no flags, two keys and a "none" answer, the
result is the same whether the already-chosen key is absent or
`"just-created"`. -/
theorem c9_chosen_key_noninterference_witness :
    (askWhichSSHKeysDoTheyWantToAdd
        { allSshKeys := none, sshKeyId := none } none
        { keyItems := [⟨"k1", "n1"⟩, ⟨"k2", "n2"⟩], confirmResponse := false,
          selectResponse := "none", multiselectResponse := [] }).1
      = (askWhichSSHKeysDoTheyWantToAdd
          { allSshKeys := none, sshKeyId := none } (some "just-created")
          { keyItems := [⟨"k1", "n1"⟩, ⟨"k2", "n2"⟩], confirmResponse := false,
            selectResponse := "none", multiselectResponse := [] }).1 :=
  c9_chosen_key_noninterference
    { allSshKeys := none, sshKeyId := none } none (some "just-created")
    { keyItems := [⟨"k1", "n1"⟩, ⟨"k2", "n2"⟩], confirmResponse := false,
      selectResponse := "none", multiselectResponse := [] }
    (Or.inr rfl)

/-- C10: on the non-interactive path of `createCommand`, the
`ssh_public_key_ids` value is the full list of account key identifiers
when the `--all-ssh-keys` flag is true and the empty list otherwise,
and it is independent of the `--ssh-key-id` flags: any two argument
records agreeing on `allSshKeys` produce the same value. -/
theorem c10_non_interactive_keys (args args2 : CreateArgs)
    (ks : List SSHKeyItem)
    (h : args2.allSshKeys = args.allSshKeys) :
    (args.allSshKeys = some true →
       nonInteractiveKeysToAdd args ks = ks.map (fun k => k.id)) ∧
    (args.allSshKeys ≠ some true → nonInteractiveKeysToAdd args ks = []) ∧
    nonInteractiveKeysToAdd args2 ks = nonInteractiveKeysToAdd args ks := by
  unfold nonInteractiveKeysToAdd
  rw [h]
  refine ⟨?_, ?_, rfl⟩
  · intro ht
    rw [ht]
    rfl
  · intro ht
    have hf : optBoolTruthy args.allSshKeys = false := by
      cases hb : args.allSshKeys with
      | none => rfl
      | some b =>
        cases b with
        | false => rfl
        | true => exact absurd hb ht
    simp [hf]

/-- Witness for C10: with the flag unset, the payload field is empty
and unchanged when the `--ssh-key-id` flags differ. -/
theorem c10_non_interactive_keys_witness :
    (((none : Option Bool) = some true) →
       nonInteractiveKeysToAdd { allSshKeys := none, sshKeyId := none }
           [⟨"a", "n1"⟩] = ([⟨"a", "n1"⟩] : List SSHKeyItem).map (fun k => k.id)) ∧
    (((none : Option Bool) ≠ some true) →
       nonInteractiveKeysToAdd { allSshKeys := none, sshKeyId := none }
           [⟨"a", "n1"⟩] = []) ∧
    nonInteractiveKeysToAdd { allSshKeys := none, sshKeyId := some ["a", "b"] }
        [⟨"a", "n1"⟩]
      = nonInteractiveKeysToAdd { allSshKeys := none, sshKeyId := none }
          [⟨"a", "n1"⟩] :=
  c10_non_interactive_keys
    { allSshKeys := none, sshKeyId := none }
    { allSshKeys := none, sshKeyId := some ["a", "b"] }
    [⟨"a", "n1"⟩] rfl

end Cloudchamber
